import Mathlib

/-!
Shallow embedding of the CEE record-enrichment and projection pipeline of
src/app.py (functions load_and_process_data, lines 117-222, and the
projection code of tab 8, lines 630-662, together with the module-level
constant tables, lines 50-96).

Modelling conventions:
* A spreadsheet cell is one of: a missing value (NaN), a text value, a
  numeric value, or a date value.  Only the year component of a date is
  ever used by the pipeline, so a date cell carries its year.  A cell
  that pd.to_datetime can parse is modelled as Cell.date; text that it
  cannot parse coerces to NaT, modelled by toDatetime returning none.
* Python floats are modelled as exact rationals; the constant tables
  (1/12.16 and so on) are the exact rationals the source writes.
* A table is a list of column names (after the str.strip of line 121)
  plus a list of rows; each row is an association list from column name
  to cell.  In pandas a column either exists for every row or for none,
  which the table-level cols list captures.
* pandas str accessor operations map to the corresponding Lean String
  operations.  Series.replace(a, b) replaces exact full-cell matches.
* The numeric string representation of astype(str) for numeric cells is
  abstracted by toString; no claim depends on the exact digits of a
  numeric cell rendered as text, only on emptiness and on the value
  being distinct from the literal text nan.
-/

namespace RSE

inductive Cell where
  | na : Cell
  | str : String → Cell
  | num : ℚ → Cell
  | date : ℤ → Cell
deriving DecidableEq

abbrev Row := List (String × Cell)

structure RawTable where
  cols : List String
  rows : List Row
deriving DecidableEq

/-- Cell access: in pandas every existing column has a value in every row;
a name not present in the row reads as a missing value. -/
def getCell (r : Row) (c : String) : Cell :=
  match r.find? (fun p => p.1 == c) with
  | some p => p.2
  | none => Cell.na

/-- astype(str): missing values render as the text nan. -/
def cellToStr : Cell → String
  | Cell.na => "nan"
  | Cell.str s => s
  | Cell.num q => toString q
  | Cell.date y => toString y

/-- pd.to_datetime with errors equal to coerce: date-parseable cells keep
their year, everything else becomes NaT (lines 124-127). -/
def toDatetime : Cell → Option ℤ
  | Cell.date y => some y
  | _ => none

/-!
Character-list implementations of the string operations the source
applies through the pandas str accessor (strip, upper, split, zfill,
slicing).  They are written over List Char so that every concrete
instance reduces inside the kernel.
-/

/-- str.strip: drop whitespace from both ends. -/
def trimChars (cs : List Char) : List Char :=
  ((cs.dropWhile Char.isWhitespace).reverse.dropWhile Char.isWhitespace).reverse

def sTrim (s : String) : String := String.mk (trimChars s.toList)

/-- str.upper. -/
def sUpper (s : String) : String := String.mk (s.toList.map Char.toUpper)

/-- split on a single separator character, Python semantics: the empty
string yields one empty field, a trailing separator yields a trailing
empty field. -/
def splitOnChar (sep : Char) : List Char → List (List Char)
  | [] => [[]]
  | c :: rest =>
    match splitOnChar sep rest with
    | [] => [[c]]
    | g :: gs => if c = sep then [] :: g :: gs else (c :: g) :: gs

/-- split on the dash, as .str.split of lines 159-160. -/
def sSplitDash (s : String) : List String :=
  (splitOnChar '-' s.toList).map String.mk

/-- First n characters, as the [:2] slice of line 132. -/
def sTake (n : ℕ) (s : String) : String := String.mk (s.toList.take n)

/-- Decimal-digit characters to a natural number, none when empty or
when a non-digit occurs. -/
def digitsToNat (cs : List Char) : Option ℕ :=
  if cs ≠ [] ∧ cs.all Char.isDigit then
    some (cs.foldl (fun n c => n * 10 + (c.toNat - 48)) 0)
  else none

def parseUnsigned (cs : List Char) : Option ℚ :=
  match splitOnChar '.' cs with
  | [ip] => (digitsToNat ip).map (fun n => (n : ℚ))
  | [ip, fp] =>
    match digitsToNat ip, digitsToNat fp with
    | some n, some f => some ((n : ℚ) + (f : ℚ) / (10 : ℚ) ^ fp.length)
    | _, _ => none
  | _ => none

/-- Numeric parsing of a text cell, as pd.to_numeric with errors equal
to coerce: optional sign, integer part, optional fractional part. -/
def parseNumStr (s : String) : Option ℚ :=
  match trimChars s.toList with
  | '-' :: rest => (parseUnsigned rest).map (fun q => -q)
  | t => parseUnsigned t

/-- pd.to_numeric with errors equal to coerce (lines 150-152). -/
def to_numeric : Cell → Option ℚ
  | Cell.num q => some q
  | Cell.str s => parseNumStr s
  | _ => none

/-- First occurrence of a capital P followed by a digit, as the regex
extraction of line 138. -/
def findPdigit : List Char → Option String
  | [] => none
  | c :: rest =>
    if c = 'P' then
      match rest with
      | d :: _ => if d.isDigit then some (String.mk [c, d]) else findPdigit rest
      | [] => none
    else findPdigit rest

def extractPeriode (s : String) : String :=
  (findPdigit s.toList).getD "P5"

/-- str.zfill(5) on an unsigned postal-code string (line 131). -/
def zfill5 (s : String) : String :=
  if s.toList.length < 5 then String.mk (List.replicate (5 - s.toList.length) '0' ++ s.toList)
  else s

-- =========================
-- Constant tables (lines 50-96)
-- =========================

def FACTEUR_CUMAC_TO_KWH (k : String) : Option ℚ :=
  if k = "BAR-TH" then some (1 / 12.16)
  else if k = "BAR-EN" then some (1 / 17.29)
  else if k = "BAR-EQ" then some (1 / 11.12)
  else if k = "BAT-TH" then some (1 / 12.16)
  else if k = "AGRI-TH" then some (1 / 12.16)
  else if k = "BAT-EN" then some (1 / 17.29)
  else if k = "TRA" then some (1 / 0.9615)
  else if k = "DEFAULT" then some (1 / 8.11)
  else none

/-- The DEFAULT entry of FACTEUR_CUMAC_TO_KWH, used by the fillna of
lines 167-168 and by the fallback branch of line 181. -/
def FACTEUR_DEFAULT : ℚ := 1 / 8.11

def DUREE_VIE_EQUIPEMENT (k : String) : Option ℤ :=
  if k = "BAR-TH" then some 17
  else if k = "AGRI-TH" then some 17
  else if k = "BAR-EN" then some 30
  else if k = "BAR-EQ" then some 15
  else if k = "BAT-TH" then some 17
  else if k = "BAT-EN" then some 30
  else if k = "TRA" then some 1
  else if k = "DEFAULT" then some 10
  else none

/-- The DEFAULT entry of DUREE_VIE_EQUIPEMENT (lines 170 and 182). -/
def DUREE_DEFAULT : ℤ := 10

def EMISSION_CO2_KWH : ℚ := 0.057
def COUT_CHAUFFAGE_KWH : ℚ := 0.10
def CONSO_MOYENNE_FOYER_KWH : ℚ := 15312
def TAUX_EFFICACITE_DEFAULT : ℚ := 0.45

-- =========================
-- Per-row derivations of load_and_process_data (lines 117-218)
-- =========================

/-- Lines 135-140: three-tier Période fallback. -/
def periodeOf (cols : List String) (row : Row) : String :=
  if cols.contains "PERIODE" then sUpper (sTrim (cellToStr (getCell row "PERIODE")))
  else if cols.contains "Depot" then extractPeriode (cellToStr (getCell row "Depot"))
  else "P5"

/-- Lines 143-147: Mandataire normalisation. -/
def mandataireOf (cols : List String) (row : Row) : String :=
  if cols.contains "Mandataire" then
    let t := sTrim (cellToStr (getCell row "Mandataire"))
    if t = "nan" ∨ t = "NaN" then "Non renseigné" else t
  else "Non renseigné"

/-- Lines 130-132: postal code to department; absent column means no
departement field downstream. -/
def departementOf (cols : List String) (row : Row) : Option String :=
  if cols.contains "code postal" then
    some (sTake 2 (zfill5 (sTrim (cellToStr (getCell row "code postal")))))
  else none

/-- Lines 150-154: the four primary numeric columns, coerced with
default 0, and created as the constant 0 when absent. -/
def numField (cols : List String) (row : Row) (c : String) : ℚ :=
  if cols.contains c then (to_numeric (getCell row c)).getD 0 else 0

/-- Line 158: the raw equipment code, stripped and uppercased. -/
def equipCode (row : Row) : String :=
  sUpper (sTrim (cellToStr (getCell row "Code équipement")))

/-- Lines 158-166: FacteurKey derivation from a raw equipment-code
string.  split on the dash; the key is the first segment alone unless
the second segment is TH, EN or EQ, in which case it is
first-dash-second. -/
def FacteurKey (code : String) : String :=
  let c := sUpper (sTrim code)
  let pref := (sSplitDash c).headD ""
  let sub := (sSplitDash c).getD 1 ""
  if sub = "TH" ∨ sub = "EN" ∨ sub = "EQ" then pref ++ "-" ++ sub else pref

/-- Modelled from the spec: the EquipmentKey derivation exactly as the
words of the spec sentence for claim C5 describe it, on the given string
itself (no normalisation): the key is the part before the first dash
alone, unless the second dash-separated segment is one of TH, EN, EQ, in
which case the key is prefix-dash-segment.  Declared only to compare
with the FacteurKey function translated from the source. -/
def specEquipmentKey (code : String) : String :=
  let pref := (sSplitDash code).headD ""
  let sub := (sSplitDash code).getD 1 ""
  if sub = "TH" ∨ sub = "EN" ∨ sub = "EQ" then pref ++ "-" ++ sub else pref

/-- Lines 157-166 and the fallback of lines 180-185: the FacteurKey
column exists only when the equipment-code column does. -/
def facteurKeyOf (cols : List String) (row : Row) : Option String :=
  if cols.contains "Code équipement" then
    some (FacteurKey (cellToStr (getCell row "Code équipement")))
  else none

/-- Lines 167-168 and 181. -/
def facteurOf (cols : List String) (row : Row) : ℚ :=
  match facteurKeyOf cols row with
  | some k => (FACTEUR_CUMAC_TO_KWH k).getD FACTEUR_DEFAULT
  | none => FACTEUR_DEFAULT

/-- Lines 170 and 182. -/
def dureeVieOf (cols : List String) (row : Row) : ℤ :=
  match facteurKeyOf cols row with
  | some k => (DUREE_VIE_EQUIPEMENT k).getD DUREE_DEFAULT
  | none => DUREE_DEFAULT

/-- Lines 172-178 and 183. -/
def secteurOf (cols : List String) (row : Row) : String :=
  if cols.contains "Code équipement" then
    let p := (sSplitDash (equipCode row)).headD ""
    if p = "BAR" then "Bât. Résidentiel"
    else if p = "BAT" then "Bât. Tertiaire"
    else if p = "TRA" then "Transport"
    else if p = "AGRI" then "Agriculture"
    else if p = "IND" then "Industrie"
    else "Autre"
  else "Autre"

/-- Lines 179 and 184. -/
def sousCategorieOf (cols : List String) (row : Row) : String :=
  if cols.contains "Code équipement" then
    let sub := (sSplitDash (equipCode row)).getD 1 ""
    if sub = "" then "N/A" else sub
  else "N/A"

/-- Lines 159 and 185. -/
def codePrefOf (cols : List String) (row : Row) : String :=
  if cols.contains "Code équipement" then (sSplitDash (equipCode row)).headD ""
  else "Autre"

/-- Lines 188-193: the two beneficiary-identifier columns are created
empty when absent, then stripped, and a full-cell value nan becomes
empty. -/
def sirenNorm (cols : List String) (row : Row) (c : String) : String :=
  let raw := if cols.contains c then cellToStr (getCell row c) else ""
  let t := sTrim raw
  if t = "nan" then "" else t

/-- Lines 195-200: np.select priority order. -/
def typeBeneficiaireOf (cols : List String) (row : Row) : String :=
  if 0 < numField cols row "Total précarité" then "Précarité énergétique"
  else if sirenNorm cols row "Tableau Recapitulatif champ 8" ≠ "" ∨
          sirenNorm cols row "Tableau Recapitulatif champ 9" ≠ "" then "Personne Morale"
  else "Ménage Classique"

structure Enriched where
  periode : String
  mandataire : String
  departement : Option String
  total : ℚ
  totalPrecarite : ℚ
  totalClassique : ℚ
  champ23 : ℚ
  codeEquipPref : String
  facteurKey : Option String
  facteurConversion : ℚ
  dureeVie : ℤ
  secteur : String
  sousCategorie : String
  champ8 : String
  champ9 : String
  typeBeneficiaire : String
  statut : String
  anneeDepot : Option ℤ
  kWhCumac : ℚ
  gWhCumac : ℚ
  kWhReelsAnnuels : ℚ
  gWhReelsAnnuels : ℚ
  co2EviteTonnesAn : ℚ
  nbFoyersEquivalents : ℚ
  economiesEurosAn : ℚ
  primeVersee : ℚ
deriving DecidableEq

/-- The per-row part of load_and_process_data (lines 124-216).
kWh_cumac of line 206 re-coerces the Total column already coerced and
filled at lines 150-154, which is the identity, so it equals the total
field. -/
def enrichRow (cols : List String) (taux : ℚ) (row : Row) : Enriched :=
  let kc := numField cols row "Total"
  let fac := facteurOf cols row
  let kr := kc * fac * taux
  { periode := periodeOf cols row
    mandataire := mandataireOf cols row
    departement := departementOf cols row
    total := numField cols row "Total"
    totalPrecarite := numField cols row "Total précarité"
    totalClassique := numField cols row "Total classique"
    champ23 := numField cols row "Tableau Recapitulatif champ 23"
    codeEquipPref := codePrefOf cols row
    facteurKey := facteurKeyOf cols row
    facteurConversion := fac
    dureeVie := dureeVieOf cols row
    secteur := secteurOf cols row
    sousCategorie := sousCategorieOf cols row
    champ8 := sirenNorm cols row "Tableau Recapitulatif champ 8"
    champ9 := sirenNorm cols row "Tableau Recapitulatif champ 9"
    typeBeneficiaire := typeBeneficiaireOf cols row
    statut := if (toDatetime (getCell row "Date Validation")).isSome then "Validé" else "En cours"
    anneeDepot := toDatetime (getCell row "Date depot")
    kWhCumac := kc
    gWhCumac := kc / 1000000
    kWhReelsAnnuels := kr
    gWhReelsAnnuels := kr / 1000000
    co2EviteTonnesAn := kr * EMISSION_CO2_KWH / 1000
    nbFoyersEquivalents := kr / CONSO_MOYENNE_FOYER_KWH
    economiesEurosAn := kr * COUT_CHAUFFAGE_KWH
    primeVersee := numField cols row "Tableau Recapitulatif champ 23" }

/-- load_and_process_data (lines 117-222) after a successful table read.
Lines 202 and 203 read the Date Validation and Date depot columns
without an existence check (unlike every other column access in the
function); when either column is absent the KeyError is caught by the
except of lines 220-222 and the function returns None, modelled here as
the none branch. -/
def load_and_process_data (tbl : RawTable) (taux : ℚ) : Option (List Enriched) :=
  if tbl.cols.contains "Date Validation" && tbl.cols.contains "Date depot" then
    some (tbl.rows.map (enrichRow tbl.cols taux))
  else none

-- =========================
-- Projection engine (lines 630-662)
-- =========================

/-- groupby(key) followed by sum of val over each group: one pair per
distinct key value among the rows. -/
def groupSums (df : List Enriched) (key : Enriched → String) (val : Enriched → ℚ) :
    List (String × ℚ) :=
  ((df.map key).dedup).map (fun k => (k, ((df.filter (fun r => key r == k)).map val).sum))

/-- Stable insertion of a pair into a value-descending list. -/
def insertDesc (p : String × ℚ) : List (String × ℚ) → List (String × ℚ)
  | [] => [p]
  | q :: rest => if q.2 < p.2 then p :: q :: rest else q :: insertDesc p rest

def sortDesc (l : List (String × ℚ)) : List (String × ℚ) :=
  l.foldr insertDesc []

/-- Line 643: the five FacteurKey values with the largest total
GWh_reels_annuels.  groupby raises a KeyError when the FacteurKey
column was never created (the fallback branch of lines 180-185),
modelled as none. -/
def top_ops (df : List Enriched) : Option (List String) :=
  if df.any (fun r => r.facteurKey.isNone) then none
  else some (((sortDesc (groupSums df (fun r => r.facteurKey.getD "")
    (fun r => r.gWhReelsAnnuels))).take 5).map Prod.fst)

/-- Line 646: bucket a key into itself when among the top five, into
Autres otherwise. -/
def typeOperation (tops : List String) (k : String) : String :=
  if k ∈ tops then k else "Autres"

/-- Lines 648-653: activity mask.  A missing deposit year compares as
false on both sides in pandas, so the row is never active. -/
def activeRow (r : Enriched) (y : ℤ) : Bool :=
  match r.anneeDepot with
  | none => false
  | some a => decide (a ≤ y) && decide (a + r.dureeVie > y)

def active_ops (df : List Enriched) (y : ℤ) : List Enriched :=
  df.filter (fun r => activeRow r y)

/-- range(start_year, end_year + 1) of line 639. -/
def yearRange (startY endY : ℤ) : List ℤ :=
  (List.range (endY + 1 - startY).toNat).map (fun i => startY + i)

/-- Lines 639-662: the per-year per-category breakdown list, one entry
per non-empty category per year.  The whole computation fails when the
top-five grouping fails. -/
def projection_breakdown (df : List Enriched) (startY endY : ℤ) :
    Option (List (ℤ × String × ℚ)) :=
  match top_ops df with
  | none => none
  | some tops =>
    some ((yearRange startY endY).flatMap (fun y =>
      (groupSums (active_ops df y)
        (fun r => typeOperation tops (r.facteurKey.getD ""))
        (fun r => r.gWhReelsAnnuels)).map (fun kv => (y, kv.1, kv.2))))

/-- Relative-error reading of the approximate-equality sign of the spec:
x is within one part in a thousand of the stated positive value, bounded
on both sides. -/
def approxRel (x target : ℚ) : Prop :=
  (x - target) * 1000 ≤ target ∧ (target - x) * 1000 ≤ target

instance (x target : ℚ) : Decidable (approxRel x target) := by
  unfold approxRel; infer_instance

-- =========================
-- Concrete inputs used by individual claims
-- =========================

/-- A table whose columns omit Date Validation and Date depot. -/
def tblNoDates : RawTable := ⟨["Total"], [[("Total", Cell.num 100)]]⟩

def colsZeroTotal : List String := ["Date Validation", "Date depot", "Total"]

def rowZeroTotal : Row := [("Total", Cell.num 0), ("Date depot", Cell.date 2022)]

def colsPosTotal : List String := ["Date Validation", "Date depot", "Total"]

def rowPosTotal : Row := [("Total", Cell.num 100), ("Date depot", Cell.date 2022)]

/-- An enriched record with deposit year 2020 and lifetime 5, the
instance named by the lifetime-windowing claim. -/
def rowActiveW : Enriched :=
  { periode := "P5"
    mandataire := "Non renseigné"
    departement := none
    total := 0
    totalPrecarite := 0
    totalClassique := 0
    champ23 := 0
    codeEquipPref := "Autre"
    facteurKey := none
    facteurConversion := FACTEUR_DEFAULT
    dureeVie := 5
    secteur := "Autre"
    sousCategorie := "N/A"
    champ8 := ""
    champ9 := ""
    typeBeneficiaire := "Ménage Classique"
    statut := "En cours"
    anneeDepot := some 2020
    kWhCumac := 0
    gWhCumac := 0
    kWhReelsAnnuels := 0
    gWhReelsAnnuels := 0
    co2EviteTonnesAn := 0
    nbFoyersEquivalents := 0
    economiesEurosAn := 0
    primeVersee := 0 }

def colsC6 : List String := ["Date Validation", "Date depot", "Total", "Code équipement"]

def rowC6 : Row :=
  [("Total", Cell.num 100000), ("Code équipement", Cell.str "BAR-TH-001"),
   ("Date depot", Cell.date 2022)]

def dfC6 : List Enriched := [enrichRow colsC6 (9/20) rowC6]

def lC6 : List (ℤ × String × ℚ) := [(2022, "BAR-TH", 9/2432)]

def tblC7 : RawTable :=
  ⟨["Date Validation", "Date depot", "Total"],
   [[("Total", Cell.num 100), ("Date depot", Cell.date 2022)]]⟩

def outC7 : List Enriched :=
  [enrichRow ["Date Validation", "Date depot", "Total"] (9/20)
    [("Total", Cell.num 100), ("Date depot", Cell.date 2022)]]

def colsC8 : List String := ["Date Validation", "Date depot", "Total", "Code équipement"]

def rowC8 : Row :=
  [("Total", Cell.num 100000), ("Code équipement", Cell.str "BAR-TH-001"),
   ("Date depot", Cell.date 2022)]

def eC8 : Enriched := enrichRow colsC8 (9/20) rowC8

def colsC9 : List String := ["Date Validation", "Date depot", "Total"]

def rowC9 : Row := [("Date depot", Cell.date 2022), ("Total", Cell.num 1000)]

def tblC9 : RawTable := ⟨colsC9, [rowC9]⟩

def eC9 : Enriched := enrichRow colsC9 (9/20) rowC9

def colsC10 : List String :=
  ["Tableau Recapitulatif champ 8", "Tableau Recapitulatif champ 9"]

def rowC10 : Row :=
  [("Tableau Recapitulatif champ 8", Cell.str "  nan  "),
   ("Tableau Recapitulatif champ 9", Cell.na)]

end RSE

-- =========================
-- Theorems
-- =========================

namespace RSE

/-- Every entry of the conversion-factor table, including the DEFAULT
fallback, is positive. -/
lemma facteur_lookup_pos (k : String) :
    0 < (FACTEUR_CUMAC_TO_KWH k).getD FACTEUR_DEFAULT := by
  unfold FACTEUR_CUMAC_TO_KWH FACTEUR_DEFAULT
  split_ifs <;> norm_num

lemma facteurOf_pos (cols : List String) (row : Row) : 0 < facteurOf cols row := by
  unfold facteurOf
  rcases facteurKeyOf cols row with _ | k
  · unfold FACTEUR_DEFAULT; norm_num
  · exact facteur_lookup_pos k

lemma enrichRow_kWhCumac (cols : List String) (taux : ℚ) (row : Row) :
    (enrichRow cols taux row).kWhCumac = numField cols row "Total" := rfl

lemma enrichRow_facteurConversion (cols : List String) (taux : ℚ) (row : Row) :
    (enrichRow cols taux row).facteurConversion = facteurOf cols row := rfl

lemma enrichRow_kWhReels (cols : List String) (taux : ℚ) (row : Row) :
    (enrichRow cols taux row).kWhReelsAnnuels
      = numField cols row "Total" * facteurOf cols row * taux := rfl

lemma enrichRow_gWhReels (cols : List String) (taux : ℚ) (row : Row) :
    (enrichRow cols taux row).gWhReelsAnnuels
      = numField cols row "Total" * facteurOf cols row * taux / 1000000 := rfl

lemma enrichRow_co2 (cols : List String) (taux : ℚ) (row : Row) :
    (enrichRow cols taux row).co2EviteTonnesAn
      = numField cols row "Total" * facteurOf cols row * taux * EMISSION_CO2_KWH / 1000 := rfl

lemma enrichRow_foyers (cols : List String) (taux : ℚ) (row : Row) :
    (enrichRow cols taux row).nbFoyersEquivalents
      = numField cols row "Total" * facteurOf cols row * taux / CONSO_MOYENNE_FOYER_KWH := rfl

lemma enrichRow_economies (cols : List String) (taux : ℚ) (row : Row) :
    (enrichRow cols taux row).economiesEurosAn
      = numField cols row "Total" * facteurOf cols row * taux * COUT_CHAUFFAGE_KWH := rfl

/-- Claim C1: the claim states that the enricher succeeds on every
readable table and never errors because a recognized column is absent.
The code reads the Date Validation and Date depot columns without an
existence check (lines 202-203 of src/app.py); on a table lacking them
the resulting KeyError is caught by the except of lines 220-222 and the
routine returns an error value instead of an enriched table.  This
theorem evaluates the embedded routine at such a table. -/
theorem c1_enricher_fails_without_date_columns :
    load_and_process_data tblNoDates (9/20) = none := rfl

/-- Claim C5 counterexample: on the lowercase code bar-th-001 the code
first uppercases, so the derived key is BAR-TH, while the claim, read on
the given string, predicts the plain prefix bar (its second segment th
is not in the set of uppercase markers).  The derived key differs from
the one the claim describes. -/
theorem c5_counterexample :
    FacteurKey "bar-th-001" = "BAR-TH" ∧
    specEquipmentKey "bar-th-001" = "bar" ∧
    FacteurKey "bar-th-001" ≠ specEquipmentKey "bar-th-001" := by
  refine ⟨rfl, rfl, ?_⟩
  decide

/-- Claim C5 (amended): for every equipment-code string, the derived
EquipmentKey is obtained by first trimming and uppercasing the string
and then taking the prefix before the first dash alone, unless the
second dash-separated segment is one of TH, EN, EQ, in which case the
key is prefix-dash-segment. -/
theorem c5_key_after_normalisation (code : String) :
    FacteurKey code = specEquipmentKey (sUpper (sTrim code)) := rfl

/-- Claim C4: BeneficiaryType is assigned by priority: precarity amount
strictly positive forces the precarity-household type even when a
legal-entity identifier is present; otherwise a non-empty identifier in
either field gives the legal-entity type; otherwise the
standard-household default. -/
theorem c4_beneficiary_priority (cols : List String) (taux : ℚ) (row : Row) :
    (enrichRow cols taux row).typeBeneficiaire =
      (if 0 < (enrichRow cols taux row).totalPrecarite then "Précarité énergétique"
       else if (enrichRow cols taux row).champ8 ≠ "" ∨ (enrichRow cols taux row).champ9 ≠ ""
         then "Personne Morale"
       else "Ménage Classique") := rfl

/-- Claim C10: an identifier cell whose trimmed text is exactly nan (or
empty) is treated as absent by the legal-entity test, so a row whose
precarity amount is not positive and whose two identifier fields are
both empty or nan gets the standard-household default type. -/
theorem c10_nan_identifier_absent (cols : List String) (taux : ℚ) (row : Row)
    (hp : ¬ 0 < (enrichRow cols taux row).totalPrecarite)
    (h8 : sTrim (cellToStr (getCell row "Tableau Recapitulatif champ 8")) = "" ∨
          sTrim (cellToStr (getCell row "Tableau Recapitulatif champ 8")) = "nan")
    (h9 : sTrim (cellToStr (getCell row "Tableau Recapitulatif champ 9")) = "" ∨
          sTrim (cellToStr (getCell row "Tableau Recapitulatif champ 9")) = "nan") :
    (enrichRow cols taux row).typeBeneficiaire = "Ménage Classique" := by
  have htrim : sTrim "" = "" := rfl
  have e8 : sirenNorm cols row "Tableau Recapitulatif champ 8" = "" := by
    simp only [sirenNorm]
    rcases h8 with h | h <;> split_ifs <;> simp_all
  have e9 : sirenNorm cols row "Tableau Recapitulatif champ 9" = "" := by
    simp only [sirenNorm]
    rcases h9 with h | h <;> split_ifs <;> simp_all
  have hp' : ¬ 0 < numField cols row "Total précarité" := hp
  show typeBeneficiaireOf cols row = "Ménage Classique"
  unfold typeBeneficiaireOf
  rw [if_neg hp', e8, e9]
  simp

/-- Claim C10 witness at a concrete row: identifier cells holding the
text nan with surrounding blanks and a missing value, no precarity
column. -/
theorem c10_witness :
    (enrichRow colsC10 (9/20) rowC10).typeBeneficiaire = "Ménage Classique" :=
  c10_nan_identifier_absent colsC10 (9/20) rowC10 (by decide) (Or.inr rfl) (Or.inr rfl)

/-- Claim C2 counterexample: on a row whose cumac total is 0 every
derived metric is 0 at every efficiency rate, so raising the rate from
0.4 to 0.5 leaves all four fields unchanged and the claimed strict
increase fails. -/
theorem c2_counterexample :
    (2/5 : ℚ) < 1/2 ∧
    (enrichRow colsZeroTotal (2/5) rowZeroTotal).kWhReelsAnnuels
      = (enrichRow colsZeroTotal (1/2) rowZeroTotal).kWhReelsAnnuels ∧
    (enrichRow colsZeroTotal (2/5) rowZeroTotal).co2EviteTonnesAn
      = (enrichRow colsZeroTotal (1/2) rowZeroTotal).co2EviteTonnesAn ∧
    (enrichRow colsZeroTotal (2/5) rowZeroTotal).nbFoyersEquivalents
      = (enrichRow colsZeroTotal (1/2) rowZeroTotal).nbFoyersEquivalents ∧
    (enrichRow colsZeroTotal (2/5) rowZeroTotal).economiesEurosAn
      = (enrichRow colsZeroTotal (1/2) rowZeroTotal).economiesEurosAn := by
  have h0 : numField colsZeroTotal rowZeroTotal "Total" = 0 := rfl
  refine ⟨by norm_num, ?_, ?_, ?_, ?_⟩ <;>
    simp [enrichRow_kWhReels, enrichRow_co2, enrichRow_foyers, enrichRow_economies, h0]

/-- Claim C2 (amended): every one of the four derived fields is linear
in the efficiency rate, with slope proportional to the cumac of the row
times its conversion factor; increasing the rate strictly increases all
four fields when the cumac of the row is positive (with cumac 0 they are
unchanged, see the counterexample). -/
theorem c2_rate_linear_monotone (cols : List String) (row : Row) (t1 t2 : ℚ)
    (hlt : t1 < t2) :
    ((enrichRow cols t2 row).kWhReelsAnnuels - (enrichRow cols t1 row).kWhReelsAnnuels
      = (enrichRow cols t1 row).kWhCumac * (enrichRow cols t1 row).facteurConversion
        * (t2 - t1)) ∧
    ((enrichRow cols t2 row).co2EviteTonnesAn - (enrichRow cols t1 row).co2EviteTonnesAn
      = (enrichRow cols t1 row).kWhCumac * (enrichRow cols t1 row).facteurConversion
        * (t2 - t1) * EMISSION_CO2_KWH / 1000) ∧
    ((enrichRow cols t2 row).nbFoyersEquivalents - (enrichRow cols t1 row).nbFoyersEquivalents
      = (enrichRow cols t1 row).kWhCumac * (enrichRow cols t1 row).facteurConversion
        * (t2 - t1) / CONSO_MOYENNE_FOYER_KWH) ∧
    ((enrichRow cols t2 row).economiesEurosAn - (enrichRow cols t1 row).economiesEurosAn
      = (enrichRow cols t1 row).kWhCumac * (enrichRow cols t1 row).facteurConversion
        * (t2 - t1) * COUT_CHAUFFAGE_KWH) ∧
    (0 < (enrichRow cols t1 row).kWhCumac →
      (enrichRow cols t1 row).kWhReelsAnnuels < (enrichRow cols t2 row).kWhReelsAnnuels ∧
      (enrichRow cols t1 row).co2EviteTonnesAn < (enrichRow cols t2 row).co2EviteTonnesAn ∧
      (enrichRow cols t1 row).nbFoyersEquivalents
        < (enrichRow cols t2 row).nbFoyersEquivalents ∧
      (enrichRow cols t1 row).economiesEurosAn < (enrichRow cols t2 row).economiesEurosAn) := by
  simp only [enrichRow_kWhReels, enrichRow_co2, enrichRow_foyers, enrichRow_economies,
    enrichRow_kWhCumac, enrichRow_facteurConversion]
  refine ⟨by ring, by ring, by ring, by ring, ?_⟩
  intro hkc
  have hfac := facteurOf_pos cols row
  have hkr : numField cols row "Total" * facteurOf cols row * t1
      < numField cols row "Total" * facteurOf cols row * t2 := by
    nlinarith [mul_pos hkc hfac, sub_pos.mpr hlt]
  have hE : EMISSION_CO2_KWH = 57/1000 := by norm_num [EMISSION_CO2_KWH]
  have hH : COUT_CHAUFFAGE_KWH = 1/10 := by norm_num [COUT_CHAUFFAGE_KWH]
  have hC : CONSO_MOYENNE_FOYER_KWH = 15312 := rfl
  rw [hE, hH, hC]
  refine ⟨hkr, by linarith, by linarith, by linarith⟩

/-- Claim C2 witness: at a concrete row with cumac 100 the strict
increase and the linear-difference identity hold between rates 0.45 and
0.5. -/
theorem c2_witness :
    ((enrichRow colsPosTotal (9/20) rowPosTotal).kWhReelsAnnuels
      < (enrichRow colsPosTotal (1/2) rowPosTotal).kWhReelsAnnuels) ∧
    ((enrichRow colsPosTotal (1/2) rowPosTotal).kWhReelsAnnuels
      - (enrichRow colsPosTotal (9/20) rowPosTotal).kWhReelsAnnuels
      = (enrichRow colsPosTotal (9/20) rowPosTotal).kWhCumac
        * (enrichRow colsPosTotal (9/20) rowPosTotal).facteurConversion * (1/2 - 9/20)) := by
  have h := c2_rate_linear_monotone colsPosTotal rowPosTotal (9/20) (1/2) (by norm_num)
  exact ⟨(h.2.2.2.2 (by decide)).1, h.1⟩

/-- Claim C3: a record with a deposit year d and a lifetime is selected
by the projection engine as active at year y exactly when
d ≤ y < d + lifetime; in particular with deposit year 2020 and lifetime
5 it is active exactly for the years 2020 through 2024 and absent from
2025 onward. -/
theorem c3_active_window (df : List Enriched) (r : Enriched) (y d : ℤ)
    (h : r.anneeDepot = some d) :
    (r ∈ active_ops df y ↔ r ∈ df ∧ (d ≤ y ∧ y < d + r.dureeVie)) ∧
    (d = 2020 → r.dureeVie = 5 →
      (r ∈ active_ops df y ↔ r ∈ df ∧ (2020 ≤ y ∧ y ≤ 2024))) := by
  have hact : (activeRow r y = true) ↔ (d ≤ y ∧ y < d + r.dureeVie) := by
    simp only [activeRow, h, Bool.and_eq_true, decide_eq_true_eq, gt_iff_lt]
  have hmem : r ∈ active_ops df y ↔ r ∈ df ∧ (d ≤ y ∧ y < d + r.dureeVie) := by
    rw [active_ops, List.mem_filter, hact]
  refine ⟨hmem, fun h20 h5 => ?_⟩
  rw [hmem, h20, h5]
  constructor
  · rintro ⟨h1, h2, h3⟩; exact ⟨h1, h2, by omega⟩
  · rintro ⟨h1, h2, h3⟩; exact ⟨h1, h2, by omega⟩

/-- Claim C3 witness: a concrete enriched record with deposit year 2020
and lifetime 5 is active at 2024 and not active at 2025. -/
theorem c3_witness :
    rowActiveW ∈ active_ops [rowActiveW] 2024 ∧
    rowActiveW ∉ active_ops [rowActiveW] 2025 := by
  have h24 := (c3_active_window [rowActiveW] rowActiveW 2024 2020 rfl).2 rfl rfl
  have h25 := (c3_active_window [rowActiveW] rowActiveW 2025 2020 rfl).2 rfl rfl
  constructor
  · exact h24.mpr ⟨List.mem_singleton.mpr rfl, by omega, by omega⟩
  · intro hm
    have := (h25.mp hm).2.2
    omega

lemma top_ops_length_le (df : List Enriched) (tops : List String)
    (h : top_ops df = some tops) : tops.length ≤ 5 := by
  unfold top_ops at h
  split_ifs at h
  have h' := Option.some.inj h
  rw [← h']
  simp only [List.length_map, List.length_take]
  omega

lemma groupSums_key_mem (df : List Enriched) (key : Enriched → String) (val : Enriched → ℚ)
    (p : String × ℚ) (hp : p ∈ groupSums df key val) : ∃ r ∈ df, p.1 = key r := by
  unfold groupSums at hp
  obtain ⟨k, hk, rfl⟩ := List.mem_map.mp hp
  obtain ⟨r, hr, hkr⟩ := List.mem_map.mp (List.mem_dedup.mp hk)
  exact ⟨r, hr, hkr.symm⟩

/-- Claim C6: for any enriched table on which the projection engine
succeeds, the breakdown entries of any single year carry at most 6
distinct category labels: the at-most-five top keys plus the Autres
bucket. -/
theorem c6_category_bound (df : List Enriched) (startY endY : ℤ)
    (l : List (ℤ × String × ℚ)) (h : projection_breakdown df startY endY = some l)
    (y : ℤ) :
    ((l.filter (fun x => x.1 == y)).map (fun x => x.2.1)).toFinset.card ≤ 6 := by
  unfold projection_breakdown at h
  cases htop : top_ops df with
  | none => rw [htop] at h; exact Option.noConfusion h
  | some tops =>
    rw [htop] at h
    have h' := Option.some.inj h
    have hlab : ∀ x ∈ l, x.2.1 ∈ ("Autres" :: tops) := by
      intro x hx
      rw [← h'] at hx
      obtain ⟨y', hy', hx'⟩ := List.mem_flatMap.mp hx
      obtain ⟨kv, hkv, rfl⟩ := List.mem_map.mp hx'
      obtain ⟨r, hr, hkey⟩ := groupSums_key_mem _ _ _ kv hkv
      show kv.1 ∈ ("Autres" :: tops)
      rw [hkey]
      unfold typeOperation
      split_ifs with hc
      · exact List.mem_cons_of_mem _ hc
      · exact List.mem_cons_self _ _
    have hsub : ((l.filter (fun x => x.1 == y)).map (fun x => x.2.1)).toFinset ⊆
        ("Autres" :: tops).toFinset := by
      intro a ha
      rw [List.mem_toFinset] at ha
      obtain ⟨x, hx, rfl⟩ := List.mem_map.mp ha
      rw [List.mem_toFinset]
      exact hlab x (List.mem_of_mem_filter hx)
    have hcard := Finset.card_le_card hsub
    have hlen : ("Autres" :: tops).toFinset.card ≤ tops.length + 1 := by
      simpa using List.toFinset_card_le ("Autres" :: tops)
    have ht5 := top_ops_length_le df tops htop
    omega

/-- Claim C6 witness at a concrete one-row table. -/
theorem c6_witness :
    ((lC6.filter (fun x => x.1 == 2022)).map (fun x => x.2.1)).toFinset.card ≤ 6 := by
  have htot : numField colsC6 rowC6 "Total" = 100000 := rfl
  have hfac : facteurOf colsC6 rowC6 = 1 / 12.16 := rfl
  have hgwh : (enrichRow colsC6 (9/20) rowC6).gWhReelsAnnuels = 9 / 2432 := by
    rw [enrichRow_gWhReels, htot, hfac]; norm_num
  have hpb : projection_breakdown dfC6 2022 2022
      = some [(2022, "BAR-TH", (enrichRow colsC6 (9/20) rowC6).gWhReelsAnnuels + 0)] := rfl
  refine c6_category_bound dfC6 2022 2022 lC6 ?_ 2022
  rw [hpb, hgwh]
  norm_num [lC6]

/-- Claim C7: whenever the enricher succeeds, the output table is the
row-for-row image of the input rows: same length, row i of the output
enriched from row i of the input, so no row is dropped, duplicated or
reordered and only columns are added. -/
theorem c7_row_preservation (tbl : RawTable) (taux : ℚ) (out : List Enriched)
    (h : load_and_process_data tbl taux = some out) :
    out = tbl.rows.map (enrichRow tbl.cols taux) ∧ out.length = tbl.rows.length := by
  unfold load_and_process_data at h
  split_ifs at h
  have h' := Option.some.inj h
  refine ⟨h'.symm, ?_⟩
  rw [← h']
  exact List.length_map _ _

/-- Claim C7 witness at a concrete one-row table. -/
theorem c7_witness :
    outC7 = tblC7.rows.map (enrichRow tblC7.cols (9/20)) ∧
    outC7.length = tblC7.rows.length :=
  c7_row_preservation tblC7 (9/20) outC7 rfl

/-- Claim C8: the worked example: cumac 100000, equipment code
BAR-TH-001, deposit year 2022, efficiency rate 0.45 give key BAR-TH,
conversion factor 1/12.16 (approximately 0.08224), approximately 3700.8
kWh of real annual energy, approximately 0.2110 tonnes of CO2 avoided,
lifetime 17, and activity exactly in projection years 2022 through
2038.  The approximate equalities of the claim are read as relative
error of at most one part in a thousand, since the stated figures chain
an already-rounded factor (the exact values are 140625/38 kWh and
27/128 tonnes). -/
theorem c8_worked_example :
    eC8.facteurKey = some "BAR-TH" ∧
    eC8.facteurConversion = 1 / 12.16 ∧
    approxRel eC8.facteurConversion 0.08224 ∧
    approxRel eC8.kWhReelsAnnuels 3700.8 ∧
    approxRel eC8.co2EviteTonnesAn 0.2110 ∧
    eC8.dureeVie = 17 ∧
    (∀ y : ℤ, activeRow eC8 y = true ↔ (2022 ≤ y ∧ y ≤ 2038)) := by
  have hfc : eC8.facteurConversion = 1 / 12.16 := rfl
  have htot : numField colsC8 rowC8 "Total" = 100000 := rfl
  have hfac : facteurOf colsC8 rowC8 = 1 / 12.16 := rfl
  have hkWh : eC8.kWhReelsAnnuels = 140625 / 38 := by
    show numField colsC8 rowC8 "Total" * facteurOf colsC8 rowC8 * (9/20) = 140625 / 38
    rw [htot, hfac]; norm_num
  have hco2 : eC8.co2EviteTonnesAn = 27 / 128 := by
    show numField colsC8 rowC8 "Total" * facteurOf colsC8 rowC8 * (9/20)
        * EMISSION_CO2_KWH / 1000 = 27 / 128
    rw [htot, hfac]; norm_num [EMISSION_CO2_KWH]
  refine ⟨rfl, hfc, ?_, ?_, ?_, rfl, ?_⟩
  · simp only [approxRel, hfc]; norm_num
  · simp only [approxRel, hkWh]; norm_num
  · simp only [approxRel, hco2]; norm_num
  · intro y
    have h : eC8.anneeDepot = some 2022 := rfl
    have hd : eC8.dureeVie = 17 := rfl
    simp only [activeRow, h, hd, Bool.and_eq_true, decide_eq_true_eq, gt_iff_lt]
    omega

/-- Claim C9: on a table without the equipment-code column but with
deposit dates, the enricher succeeds with the documented default factor,
lifetime and sector, yet never creates the FacteurKey field; the
projection top-five grouping on FacteurKey then fails with a missing-key
error instead of returning a breakdown series. -/
theorem c9_projection_fails_on_fallback :
    load_and_process_data tblC9 (9/20) = some [eC9] ∧
    eC9.facteurConversion = FACTEUR_DEFAULT ∧
    eC9.dureeVie = DUREE_DEFAULT ∧
    eC9.secteur = "Autre" ∧
    eC9.facteurKey = none ∧
    eC9.anneeDepot = some 2022 ∧
    top_ops [eC9] = none ∧
    projection_breakdown [eC9] 2022 2045 = none :=
  ⟨rfl, rfl, rfl, rfl, rfl, rfl, rfl, rfl⟩

end RSE
